import Mathlib

/-!
Verification development for the DevDocs discovery-and-crawl orchestration core.

The definitions below are a shallow embedding of two source files:
- src/app/page.tsx : the client page with handleSubmit (discovery) and
  handleCrawlSelected (selection-driven crawl orchestration);
- src/unnamed/part_000 : the Next.js route handler POST for /api/discover.

Network calls are modelled by passing the settled outcome of the single
request as an explicit argument; React state updates become explicit state
passing on an AppState record; toasts become a list of Notif values.
JavaScript truthiness on optional string fields is modelled explicitly.
String length stands in for the JavaScript string length used by the code.
-/

namespace DevDocs

/-- Lifecycle status of a discovered page or of a nested link, as used by
the literals in src/app/page.tsx (plus the initial not-started state of the
data model). -/
inductive Status where
  | notStarted
  | pending
  | crawled
  | error
deriving DecidableEq

/-- Nested link of a discovered page. The status field is optional because
the source guards it with a JavaScript default (link.status || the default),
so a link may arrive from discovery with no status assigned. -/
structure LinkRef where
  href : String
  status : Option Status
deriving DecidableEq

/-- Discovered page. internalLinks is optional: the source maps over it with
an optional chain, leaving an absent list absent. -/
structure DiscoveredPage where
  url : String
  status : Status
  internalLinks : Option (List LinkRef)
deriving DecidableEq

/-- Stats record of the page. dataExtractedBytes holds the numeric byte
count handed to the display formatter formatBytes; the formatted display
string itself is presentation and is not modelled. -/
structure Stats where
  subdomainsParsed : Nat
  pagesCrawled : Nat
  dataExtractedBytes : Nat
  errorsEncountered : Nat
deriving DecidableEq

/-- The React state of the Home component that the two handlers read and
write: url, discoveredPages, markdown, stats, isProcessing, isCrawling. -/
structure AppState where
  url : String
  pages : List DiscoveredPage
  markdown : String
  stats : Stats
  isProcessing : Bool
  isCrawling : Bool
deriving DecidableEq

/-- One toast call: title, description, and whether the variant was
destructive (a failure notification). -/
structure Notif where
  title : String
  description : String
  destructive : Bool
deriving DecidableEq

/-- JavaScript truthiness of an optional string: undefined and the empty
string are falsy, every other string is truthy. -/
def jsTruthyStr : Option String → Bool
  | none => false
  | some s => !s.isEmpty

/-- JavaScript (x || d) on an optional string x with string default d. -/
def jsOrStr (x : Option String) (d : String) : String :=
  if jsTruthyStr x then x.getD "" else d

/-- Embeds the link-level arm of the three setDiscoveredPages updaters in
handleCrawlSelected (src/app/page.tsx lines 164-167, 218-221, 253-256):
status becomes the new status when href is selected, otherwise the existing
status with the JavaScript default to pending when none is assigned. -/
def markLink (sel : List String) (s : Status) (l : LinkRef) : LinkRef :=
  { l with status := some (if sel.contains l.href then s else l.status.getD Status.pending) }

/-- Embeds the page-level arm of the setDiscoveredPages updaters: status
becomes the new status exactly when the url is selected; the optional link
list is mapped through markLink when present. -/
def markPage (sel : List String) (s : Status) (p : DiscoveredPage) : DiscoveredPage :=
  { p with
      status := if sel.contains p.url then s else p.status,
      internalLinks := p.internalLinks.map (List.map (markLink sel s)) }

/-- The whole status-marking pass shared (up to the status literal) by the
pending, crawled and error updaters of handleCrawlSelected. -/
def markSelected (sel : List String) (s : Status) (ps : List DiscoveredPage) : List DiscoveredPage :=
  ps.map (markPage sel s)

/-- Body of a successful crawl response as read by handleCrawlSelected:
data.markdown, data.links, data.error, each possibly absent. -/
structure CrawlData where
  markdown : Option String
  links : Option (List LinkRef × List LinkRef)
  error : Option String
deriving DecidableEq

/-- Settled outcome of the single fetch to the backend /api/crawl:
the fetch rejected (transport error), the response was non-2xx with an
optional structured error field, or it was a 2xx response with a body. -/
inductive CrawlOutcome where
  | fetchErr (msg : String)
  | notOk (errorField : Option String)
  | ok (data : CrawlData)
deriving DecidableEq

/-- A crawl outcome that is a failed request in the sense of the spec:
a transport error or a non-2xx response. -/
def isRequestFailure : CrawlOutcome → Bool
  | .fetchErr _ => true
  | .notOk _ => true
  | .ok _ => false

/-- Embeds the catch block of handleCrawlSelected (src/app/page.tsx lines
242-263): increment errorsEncountered by one, re-mark the selection as
error on top of the current pages, and emit one destructive toast. -/
def crawlFailure (st : AppState) (sel : List String) (msg : String) :
    AppState × List Notif :=
  ({ st with
      stats := { st.stats with errorsEncountered := st.stats.errorsEncountered + 1 },
      pages := markSelected sel Status.error st.pages },
   [⟨"Error", msg, true⟩])

/-- Embeds handleCrawlSelected (src/app/page.tsx lines 153-267). The
selected payload is filtered from the pre-marking pages; the selection is
optimistically marked pending; the settled outcome of the batched request
and the success or failure of the saveMarkdown persistence step are passed
in; the finally block clears isCrawling on every path. -/
def handleCrawlSelected (st : AppState) (sel : List String)
    (outcome : CrawlOutcome) (saveOk : Bool) : AppState × List Notif :=
  let selectedPages := st.pages.filter fun p => sel.contains p.url
  let st1 : AppState :=
    { st with isCrawling := true, pages := markSelected sel Status.pending st.pages }
  let res : AppState × List Notif :=
    match outcome with
    | .fetchErr msg => crawlFailure st1 sel msg
    | .notOk e => crawlFailure st1 sel (jsOrStr e "Failed to crawl pages")
    | .ok data =>
        let md := jsOrStr data.markdown ""
        if jsTruthyStr data.error then
          crawlFailure st1 sel (data.error.getD "")
        else
          let inner : AppState × List Notif :=
            if saveOk then
              ({ st1 with
                  markdown := md,
                  stats := { st1.stats with
                              pagesCrawled := selectedPages.length,
                              dataExtractedBytes := md.length },
                  pages := markSelected sel Status.crawled st1.pages },
               [⟨"Content Saved", "Crawled content has been saved and can be loaded again later", false⟩])
            else
              (st1, [⟨"Error", "Failed to save content for later use", true⟩])
          (inner.1, inner.2 ++ [⟨"Crawling Complete", "All pages have been crawled and processed", false⟩])
  ({ res.1 with isCrawling := false }, res.2)

/-- Substring test on char lists: the first list occurs contiguously in the
second. Models the JavaScript String.includes used by the handleSubmit catch
block. -/
def leadsWith : List Char → List Char → Bool
  | [], _ => true
  | _ :: _, [] => false
  | a :: as, b :: bs => a == b && leadsWith as bs

/-- Occurrence of a pattern anywhere in a char list. -/
def occursIn (pat : List Char) : List Char → Bool
  | [] => pat.isEmpty
  | c :: rest => leadsWith pat (c :: rest) || occursIn pat rest

/-- JavaScript s.includes(pat). -/
def jsIncludes (s pat : String) : Bool := occursIn pat.toList s.toList

/-- Body of the response of the local /api/discover route as read by
handleSubmit: pages, error, details and errorType, each possibly absent. -/
structure DiscoverRespData where
  pages : Option (List DiscoveredPage)
  error : Option String
  errorType : Option String
deriving DecidableEq

/-- Settled outcome of the fetch from handleSubmit to /api/discover: the
fetch (or reading its JSON body) rejected, or a response with its ok flag
and parsed body arrived. -/
inductive DiscoveryOutcome where
  | fetchErr (msg : String)
  | resp (ok : Bool) (data : DiscoverRespData)
deriving DecidableEq

/-- A discovery outcome that is a failure: transport error or non-2xx. -/
def DiscoveryOutcome.isFailure : DiscoveryOutcome → Bool
  | .fetchErr _ => true
  | .resp ok _ => !ok

/-- Embeds the catch block of handleSubmit (src/app/page.tsx lines 130-147):
when the caught message does not contain the sentinel text a toast with that
message is shown, otherwise the generic fallback toast; both destructive. -/
def discoveryCatchNotif (msg : String) : Notif :=
  if jsIncludes msg "Failed to discover pages" then
    ⟨"Error", "Failed to discover pages. Check the console for more details.", true⟩
  else
    ⟨"Error", msg, true⟩

/-- Description text of the toast shown when discovery finds no pages
(src/app/page.tsx line 111), built without a literal apostrophe. -/
def noPagesFoundDescription : String :=
  "The crawler couldn" ++ String.singleton (Char.ofNat 39) ++
    "t find any pages to process. This might be due to access restrictions or an invalid URL structure."

/-- Embeds handleSubmit (src/app/page.tsx lines 29-151). The result of the
external validateUrl predicate (defined in src outside this excerpt, in
lib/crawl-service) is passed in as the boolean valid; when validation
passes, the state is reset (url set, markdown cleared, pages cleared) before
the request, the settled outcome is reconciled, and the finally block clears
isProcessing. -/
def handleSubmit (st : AppState) (submittedUrl : String) (depth : Int)
    (valid : Bool) (outcome : DiscoveryOutcome) : AppState × List Notif :=
  if !valid then
    (st, [⟨"Invalid URL", "Please enter a valid URL including the protocol (http:// or https://)", true⟩])
  else
    let st1 : AppState :=
      { st with url := submittedUrl, isProcessing := true, markdown := "", pages := [] }
    let res : AppState × List Notif :=
      match outcome with
      | .fetchErr msg => (st1, [discoveryCatchNotif msg])
      | .resp ok data =>
          if !ok then
            let errorMessage := jsOrStr data.error "Failed to discover pages"
            let errorType := jsOrStr data.errorType "Unknown"
            (st1, [⟨"Error: " ++ errorType, errorMessage, true⟩, discoveryCatchNotif errorMessage])
          else
            let pages := data.pages.getD []
            let warnNotifs : List Notif :=
              if 0 < pages.length then
                let errorPages := pages.filter fun p => decide (p.status = Status.error)
                if 0 < errorPages.length then
                  [⟨"Warning", toString errorPages.length ++ " pages encountered errors during discovery", false⟩]
                else []
              else
                [⟨"No Pages Found", noPagesFoundDescription, false⟩]
            let st2 : AppState :=
              { st1 with
                  pages := pages,
                  stats := { st1.stats with
                              subdomainsParsed := pages.length,
                              errorsEncountered :=
                                (pages.filter fun p => decide (p.status = Status.error)).length } }
            let successNotifs : List Notif :=
              if 0 < pages.length then
                [⟨"Pages Discovered",
                  "Found " ++ toString pages.length ++ " related pages at depth " ++ toString depth, false⟩]
              else []
            (st2, warnNotifs ++ successNotifs)
    ({ res.1 with isProcessing := false }, res.2)

/-- Depth field of the request body of the /api/discover route, recorded by
what parseInt(String(depth)) yields on it: the field was absent (so the
destructuring default 3 applies), it parsed to NaN, or it parsed to an
integer. -/
inductive DepthField where
  | absent
  | nonNumeric
  | num (n : Int)
deriving DecidableEq

/-- Result of parseInt(String(depth)) after the destructuring default
(depth = 3 when absent); none models NaN. -/
def parsedDepth : DepthField → Option Int
  | .absent => some 3
  | .nonNumeric => none
  | .num n => some n

/-- JavaScript (x || d) on an optional integer x (NaN and 0 are falsy). -/
def jsOrInt (x : Option Int) (d : Int) : Int :=
  match x with
  | none => d
  | some v => if v = 0 then d else v

/-- Embeds the depth validation of the route (src/unnamed/part_000 line 15):
Math.min(5, Math.max(1, parseInt(String(depth)) || 3)). -/
def validatedDepth (df : DepthField) : Int :=
  min 5 (max 1 (jsOrInt (parsedDepth df) 3))

/-- Clamp written from the words of the spec claim: clamp(depth, 1, 5). -/
def specClamp (d : Int) : Int := max 1 (min 5 d)

/-- Parsed request body of the /api/discover route. -/
structure DiscoverBody where
  url : Option String
  depth : DepthField
deriving DecidableEq

/-- Body of the backend response as read by the route. -/
structure BackendDiscoverData where
  pages : Option (List DiscoveredPage)
  message : Option String
  error : Option String
deriving DecidableEq

/-- Settled outcome of the fetch from the route to the backend /api/discover:
the fetch (or reading JSON) threw, or a response with ok flag, status code
and body arrived. -/
inductive BackendResult where
  | fetchErr (msg : String)
  | resp (ok : Bool) (statusCode : Nat) (data : BackendDiscoverData)
deriving DecidableEq

/-- Response of the route, together with what was sent to the backend:
contactedBackend records whether the backend fetch was issued at all and
sentDepth the depth carried by that request body. -/
structure RouteResponse where
  status : Nat
  error : Option String
  pages : Option (List DiscoveredPage)
  message : Option String
  contactedBackend : Bool
  sentDepth : Option Int
deriving DecidableEq

/-- Embeds the POST handler of the /api/discover route
(src/unnamed/part_000): falsy url gives 400 with no backend request;
otherwise the validated depth is sent, a thrown fetch gives 500 with the
error message, a non-2xx backend response is mirrored with its status code
and (errorData.error || default), and a 2xx response gives 200 with
(data.pages || []) and the message default chain. -/
def POST (body : DiscoverBody) (backend : BackendResult) : RouteResponse :=
  if !jsTruthyStr body.url then
    { status := 400, error := some "URL is required", pages := none, message := none,
      contactedBackend := false, sentDepth := none }
  else
    let d := validatedDepth body.depth
    match backend with
    | .fetchErr msg =>
        { status := 500, error := some msg, pages := some [], message := none,
          contactedBackend := true, sentDepth := some d }
    | .resp ok code data =>
        if !ok then
          { status := code, error := some (jsOrStr data.error "Failed to discover pages"),
            pages := none, message := none, contactedBackend := true, sentDepth := some d }
        else
          { status := 200, error := none, pages := some (data.pages.getD []),
            message := some (if jsTruthyStr data.message then data.message.getD ""
              else match data.pages with
                | some [] => "No pages discovered"
                | some l => "Found " ++ toString l.length ++ " pages"
                | none => "Found undefined pages"),
            contactedBackend := true, sentDepth := some d }

/-! ## Shared fixtures for witnesses and counterexamples -/

/-- Example page with one link carrying no assigned status and one link
already crawled. -/
def exPageA : DiscoveredPage :=
  ⟨"https://a/", Status.notStarted, some [⟨"https://a/b", none⟩, ⟨"https://c/", some Status.crawled⟩]⟩

/-- Example page with no link list. -/
def exPageC : DiscoveredPage := ⟨"https://c/", Status.notStarted, none⟩

/-- Example application state holding the two example pages. -/
def exState : AppState := ⟨"https://a/", [exPageA, exPageC], "", ⟨2, 0, 0, 0⟩, false, false⟩

/-! ## Helper lemmas about the status-marking pass -/

theorem markPage_url (sel : List String) (s : Status) (p : DiscoveredPage) :
    (markPage sel s p).url = p.url := rfl

theorem markLink_href (sel : List String) (s : Status) (l : LinkRef) :
    (markLink sel s l).href = l.href := rfl

theorem markSelected_map_url (sel : List String) (s : Status) (ps : List DiscoveredPage) :
    (markSelected sel s ps).map DiscoveredPage.url = ps.map DiscoveredPage.url := by
  induction ps with
  | nil => rfl
  | cons p ps ih =>
      simp only [markSelected, List.map_cons] at ih ⊢
      rw [ih, markPage_url]

theorem mem_markSelected (sel : List String) (s : Status) (ps : List DiscoveredPage)
    (p : DiscoveredPage) (hp : p ∈ markSelected sel s ps) :
    ∃ q ∈ ps, p = markPage sel s q := by
  obtain ⟨q, hq, rfl⟩ := List.mem_map.mp hp
  exact ⟨q, hq, rfl⟩

theorem markSelected_status_of_contains (sel : List String) (s : Status)
    (ps : List DiscoveredPage) (p : DiscoveredPage) (hp : p ∈ markSelected sel s ps)
    (h : sel.contains p.url = true) : p.status = s := by
  obtain ⟨q, _, rfl⟩ := mem_markSelected sel s ps p hp
  have hq : sel.contains q.url = true := h
  show (if sel.contains q.url = true then s else q.status) = s
  rw [hq]
  simp

theorem markSelected_link_status (sel : List String) (s : Status)
    (ps : List DiscoveredPage) (p : DiscoveredPage) (hp : p ∈ markSelected sel s ps)
    (ls : List LinkRef) (hls : p.internalLinks = some ls) (l : LinkRef) (hl : l ∈ ls) :
    l.status.isSome = true ∧ (sel.contains l.href = true → l.status = some s) := by
  obtain ⟨q, _, rfl⟩ := mem_markSelected sel s ps p hp
  cases hql : q.internalLinks with
  | none => simp [markPage, hql] at hls
  | some ls0 =>
      have hmap : ls = ls0.map (markLink sel s) := by
        have hintl : (markPage sel s q).internalLinks = some (ls0.map (markLink sel s)) := by
          simp [markPage, hql]
        rw [hls] at hintl
        exact Option.some.inj hintl
      subst hmap
      obtain ⟨l0, _, rfl⟩ := List.mem_map.mp hl
      refine ⟨rfl, ?_⟩
      intro h
      have h0 : sel.contains l0.href = true := h
      show some (if sel.contains l0.href = true then s else l0.status.getD Status.pending) = some s
      rw [h0]
      simp

theorem markSelected_getElem? (sel : List String) (s : Status)
    (ps : List DiscoveredPage) (i : Nat) :
    (markSelected sel s ps)[i]? = (ps[i]?).map (markPage sel s) := by
  simp [markSelected]

theorem handleCrawlSelected_failure_shape (st : AppState) (sel : List String)
    (outcome : CrawlOutcome) (saveOk : Bool) (hfail : isRequestFailure outcome = true) :
    (handleCrawlSelected st sel outcome saveOk).1.pages
        = markSelected sel Status.error (markSelected sel Status.pending st.pages) ∧
    (handleCrawlSelected st sel outcome saveOk).1.stats.errorsEncountered
        = st.stats.errorsEncountered + 1 ∧
    ∃ msg, (handleCrawlSelected st sel outcome saveOk).2 = [⟨"Error", msg, true⟩] := by
  cases outcome with
  | fetchErr msg => exact ⟨rfl, rfl, msg, rfl⟩
  | notOk e => exact ⟨rfl, rfl, jsOrStr e "Failed to crawl pages", rfl⟩
  | ok data => simp [isRequestFailure] at hfail

/-- C1: when the batched crawl request fails (transport error or non-2xx
response), the urls of the model are preserved, every selected page and
every selected link is marked error, the error counter is incremented, a
destructive failure notification is emitted, and no selected page is left
credited as crawled. -/
theorem crawl_request_failure_marks_selection_error
    (st : AppState) (sel : List String) (outcome : CrawlOutcome) (saveOk : Bool)
    (hfail : isRequestFailure outcome = true) :
    ((handleCrawlSelected st sel outcome saveOk).1.pages.map DiscoveredPage.url
        = st.pages.map DiscoveredPage.url) ∧
    (∀ p ∈ (handleCrawlSelected st sel outcome saveOk).1.pages,
        sel.contains p.url = true → p.status = Status.error) ∧
    (∀ p ∈ (handleCrawlSelected st sel outcome saveOk).1.pages,
        ∀ ls, p.internalLinks = some ls → ∀ l ∈ ls,
          sel.contains l.href = true → l.status = some Status.error) ∧
    ((handleCrawlSelected st sel outcome saveOk).1.stats.errorsEncountered
        = st.stats.errorsEncountered + 1) ∧
    (∃ n ∈ (handleCrawlSelected st sel outcome saveOk).2, n.destructive = true) ∧
    (∀ p ∈ (handleCrawlSelected st sel outcome saveOk).1.pages,
        sel.contains p.url = true → p.status ≠ Status.crawled) := by
  obtain ⟨hpages, herrs, msg, hnotifs⟩ :=
    handleCrawlSelected_failure_shape st sel outcome saveOk hfail
  refine ⟨?_, ?_, ?_, herrs, ?_, ?_⟩
  · rw [hpages, markSelected_map_url, markSelected_map_url]
  · intro p hp hc
    rw [hpages] at hp
    exact markSelected_status_of_contains _ _ _ p hp hc
  · intro p hp ls hls l hl hc
    rw [hpages] at hp
    exact (markSelected_link_status _ _ _ p hp ls hls l hl).2 hc
  · rw [hnotifs]
    exact ⟨⟨"Error", msg, true⟩, List.mem_singleton.mpr rfl, rfl⟩
  · intro p hp hc
    rw [hpages] at hp
    rw [markSelected_status_of_contains _ _ _ p hp hc]
    decide

/-- Witness for C1 at a concrete transport failure. -/
theorem crawl_request_failure_marks_selection_error_witness :
    isRequestFailure (CrawlOutcome.fetchErr "ECONNREFUSED") = true ∧
    ((handleCrawlSelected exState ["https://a/", "https://a/b"]
        (CrawlOutcome.fetchErr "ECONNREFUSED") true).1.stats.errorsEncountered
      = exState.stats.errorsEncountered + 1) :=
  ⟨rfl, (crawl_request_failure_marks_selection_error exState ["https://a/", "https://a/b"]
      (CrawlOutcome.fetchErr "ECONNREFUSED") true rfl).2.2.2.1⟩

/-- C8: a 200 crawl response carrying a truthy error field produces exactly
the same invocation result as a non-2xx response carrying that error field:
the whole selection is marked error, the error counter is incremented, and a
destructive failure notification is emitted. -/
theorem ok_response_with_error_field_is_failure
    (st : AppState) (sel : List String) (data : CrawlData) (saveOk : Bool)
    (herr : jsTruthyStr data.error = true) :
    (handleCrawlSelected st sel (CrawlOutcome.ok data) saveOk
        = handleCrawlSelected st sel (CrawlOutcome.notOk data.error) saveOk) ∧
    (∀ p ∈ (handleCrawlSelected st sel (CrawlOutcome.ok data) saveOk).1.pages,
        sel.contains p.url = true → p.status = Status.error) ∧
    ((handleCrawlSelected st sel (CrawlOutcome.ok data) saveOk).1.stats.errorsEncountered
        = st.stats.errorsEncountered + 1) ∧
    (∃ n ∈ (handleCrawlSelected st sel (CrawlOutcome.ok data) saveOk).2,
        n.destructive = true) := by
  have heq : handleCrawlSelected st sel (CrawlOutcome.ok data) saveOk
      = handleCrawlSelected st sel (CrawlOutcome.notOk data.error) saveOk := by
    simp only [handleCrawlSelected, crawlFailure, jsOrStr, herr, if_true]
  obtain ⟨hpages, herrs, msg, hnotifs⟩ :=
    handleCrawlSelected_failure_shape st sel (CrawlOutcome.notOk data.error) saveOk rfl
  rw [heq] at *
  refine ⟨rfl, ?_, herrs, ?_⟩
  · intro p hp hc
    rw [hpages] at hp
    exact markSelected_status_of_contains _ _ _ p hp hc
  · rw [hnotifs]
    exact ⟨⟨"Error", msg, true⟩, List.mem_singleton.mpr rfl, rfl⟩

/-- Witness for C8 at a concrete 200-with-error response. -/
theorem ok_response_with_error_field_is_failure_witness :
    jsTruthyStr (CrawlData.mk (some "truncated output") none (some "crawler crashed")).error = true ∧
    (handleCrawlSelected exState ["https://a/"]
        (CrawlOutcome.ok ⟨some "truncated output", none, some "crawler crashed"⟩) true
      = handleCrawlSelected exState ["https://a/"]
          (CrawlOutcome.notOk (some "crawler crashed")) true) :=
  ⟨rfl, (ok_response_with_error_field_is_failure exState ["https://a/"]
      ⟨some "truncated output", none, some "crawler crashed"⟩ true rfl).1⟩

/-- C2 counterexample: a crawl that succeeds with markdown hello whose save
step fails leaves the selected page pending, not crawled, so the claim that
the selection is still marked crawled fails on the code. -/
theorem persistence_failure_not_marked_crawled_counterexample :
    ((handleCrawlSelected exState ["https://a/"]
        (CrawlOutcome.ok ⟨some "hello", none, none⟩) false).1.pages.map DiscoveredPage.status
      = [Status.pending, Status.notStarted]) ∧
    Status.pending ≠ Status.crawled := by
  refine ⟨rfl, by decide⟩

/-- C2 amended: when the crawl succeeds (no truthy error field) but
persistence fails, a persistence-specific destructive notification is
emitted and the completion notification still fires; the persistence error
never re-marks crawl status (stats untouched, pages exactly as left by the
optimistic pending pass, so every selected item is pending, not error) —
but the selected items are not marked crawled either, because the
crawled-marking is skipped when saving fails. -/
theorem persistence_failure_is_separate_notification
    (st : AppState) (sel : List String) (data : CrawlData)
    (herr : jsTruthyStr data.error = false) :
    ((⟨"Error", "Failed to save content for later use", true⟩ : Notif)
        ∈ (handleCrawlSelected st sel (CrawlOutcome.ok data) false).2) ∧
    ((⟨"Crawling Complete", "All pages have been crawled and processed", false⟩ : Notif)
        ∈ (handleCrawlSelected st sel (CrawlOutcome.ok data) false).2) ∧
    ((handleCrawlSelected st sel (CrawlOutcome.ok data) false).1.stats = st.stats) ∧
    ((handleCrawlSelected st sel (CrawlOutcome.ok data) false).1.markdown = st.markdown) ∧
    ((handleCrawlSelected st sel (CrawlOutcome.ok data) false).1.pages
        = markSelected sel Status.pending st.pages) ∧
    (∀ p ∈ (handleCrawlSelected st sel (CrawlOutcome.ok data) false).1.pages,
        sel.contains p.url = true → p.status = Status.pending) := by
  have hshape : handleCrawlSelected st sel (CrawlOutcome.ok data) false
      = ({ st with isCrawling := false, pages := markSelected sel Status.pending st.pages },
         [⟨"Error", "Failed to save content for later use", true⟩,
          ⟨"Crawling Complete", "All pages have been crawled and processed", false⟩]) := by
    simp [handleCrawlSelected, herr]
  rw [hshape]
  refine ⟨List.mem_cons_self _ _, ?_, rfl, rfl, rfl, ?_⟩
  · exact List.mem_cons_of_mem _ (List.mem_singleton.mpr rfl)
  · intro p hp hc
    exact markSelected_status_of_contains _ _ _ p hp hc

/-- Witness for C2 amended at a concrete save failure. -/
theorem persistence_failure_is_separate_notification_witness :
    jsTruthyStr (CrawlData.mk (some "hello") none none).error = false ∧
    ((handleCrawlSelected exState ["https://a/"]
        (CrawlOutcome.ok ⟨some "hello", none, none⟩) false).1.stats = exState.stats) :=
  ⟨rfl, (persistence_failure_is_separate_notification exState ["https://a/"]
      ⟨some "hello", none, none⟩ rfl).2.2.1⟩

/-- C5 counterexample: a crawl that succeeds overall for a selection whose
url matches no discovered page sets pagesCrawled to 0, not to the size 1 of
the selection, so pagesCrawled does not in general equal the selection
size. -/
theorem success_stats_selection_size_counterexample :
    ((handleCrawlSelected ⟨"", [], "", ⟨0, 0, 0, 0⟩, false, false⟩ ["https://a/"]
        (CrawlOutcome.ok ⟨some "hello", none, none⟩) true).1.stats.pagesCrawled = 0) ∧
    (["https://a/"] : List String).length = 1 ∧ (0 : Nat) ≠ 1 := by
  refine ⟨rfl, rfl, by decide⟩

/-- C5 amended: on overall success (2xx, no truthy error field, save
succeeded) pagesCrawled is set to the number of discovered pages whose url
is in the selection — the selection size exactly when every selected url
matches a discovered page — and dataExtracted reflects the length of the
returned markdown, which is also installed as the shown markdown; the
selection is marked crawled. -/
theorem success_recomputes_stats
    (st : AppState) (sel : List String) (data : CrawlData)
    (herr : jsTruthyStr data.error = false) :
    ((handleCrawlSelected st sel (CrawlOutcome.ok data) true).1.stats.pagesCrawled
        = (st.pages.filter fun p => sel.contains p.url).length) ∧
    ((handleCrawlSelected st sel (CrawlOutcome.ok data) true).1.stats.dataExtractedBytes
        = (jsOrStr data.markdown "").length) ∧
    ((handleCrawlSelected st sel (CrawlOutcome.ok data) true).1.markdown
        = jsOrStr data.markdown "") ∧
    (∀ p ∈ (handleCrawlSelected st sel (CrawlOutcome.ok data) true).1.pages,
        sel.contains p.url = true → p.status = Status.crawled) := by
  have hpages : (handleCrawlSelected st sel (CrawlOutcome.ok data) true).1.pages
      = markSelected sel Status.crawled (markSelected sel Status.pending st.pages) := by
    simp [handleCrawlSelected, herr]
  refine ⟨?_, ?_, ?_, ?_⟩
  · simp [handleCrawlSelected, herr]
  · simp [handleCrawlSelected, herr]
  · simp [handleCrawlSelected, herr]
  · intro p hp hc
    rw [hpages] at hp
    exact markSelected_status_of_contains _ _ _ p hp hc

/-- Witness for C5 amended: markdown hello gives 5 extracted bytes and the
one matching selected page is counted. -/
theorem success_recomputes_stats_witness :
    jsTruthyStr (CrawlData.mk (some "hello") none none).error = false ∧
    ((handleCrawlSelected exState ["https://a/"]
        (CrawlOutcome.ok ⟨some "hello", none, none⟩) true).1.stats.dataExtractedBytes
      = (jsOrStr (some "hello") "").length) ∧
    (jsOrStr (some "hello") "").length = 5 ∧
    ((exState.pages.filter fun p => (["https://a/"] : List String).contains p.url).length = 1) :=
  ⟨rfl, (success_recomputes_stats exState ["https://a/"]
      ⟨some "hello", none, none⟩ rfl).2.1, rfl, rfl⟩

theorem markLink_spec (sel : List String) (s : Status) (l : LinkRef) :
    (markLink sel s l).href = l.href ∧
    (sel.contains l.href = true → (markLink sel s l).status = some s) ∧
    (sel.contains l.href = false →
      (markLink sel s l).status = some (l.status.getD Status.pending)) := by
  refine ⟨rfl, ?_, ?_⟩
  · intro h
    show some (if sel.contains l.href = true then s else l.status.getD Status.pending) = some s
    rw [h]
    simp
  · intro h
    show some (if sel.contains l.href = true then s else l.status.getD Status.pending)
        = some (l.status.getD Status.pending)
    rw [h]
    simp

theorem markPage_spec (sel : List String) (s : Status) (p : DiscoveredPage) :
    (markPage sel s p).url = p.url ∧
    (sel.contains p.url = true → (markPage sel s p).status = s) ∧
    (sel.contains p.url = false → (markPage sel s p).status = p.status) ∧
    (p.internalLinks = none → (markPage sel s p).internalLinks = none) ∧
    (∀ ls, p.internalLinks = some ls →
      (markPage sel s p).internalLinks = some (ls.map (markLink sel s))) := by
  refine ⟨rfl, ?_, ?_, ?_, ?_⟩
  · intro h
    show (if sel.contains p.url = true then s else p.status) = s
    rw [h]
    simp
  · intro h
    show (if sel.contains p.url = true then s else p.status) = p.status
    rw [h]
    simp
  · intro h
    simp [markPage, h]
  · intro ls h
    simp [markPage, h]

/-- C3 counterexample: a marking pass whose selection contains neither the
page url nor the link href still rewrites an unassigned link status to
pending, so unselected links are not left completely untouched. -/
theorem mark_pass_untouched_counterexample :
    (markSelected ["https://x/"] Status.pending
        [⟨"https://a/", Status.notStarted, some [⟨"https://a/b", none⟩]⟩]
      = [⟨"https://a/", Status.notStarted, some [⟨"https://a/b", some Status.pending⟩]⟩]) ∧
    (markSelected ["https://x/"] Status.pending
        [⟨"https://a/", Status.notStarted, some [⟨"https://a/b", none⟩]⟩]
      ≠ [⟨"https://a/", Status.notStarted, some [⟨"https://a/b", none⟩]⟩]) := by
  refine ⟨rfl, by decide⟩

/-- C3 amended: a marking pass gives every selected page and selected link
the new status and preserves the url, the status of unselected pages, and
the assigned status of unselected links; however a link with no assigned
status is rewritten to pending even when its href is not selected, so
unselected links are not always left completely untouched. -/
theorem mark_pass_frame (sel : List String) (s : Status) (ps : List DiscoveredPage) :
    ((markSelected sel s ps).map DiscoveredPage.url = ps.map DiscoveredPage.url) ∧
    (∀ (i : Nat) (p q : DiscoveredPage), ps[i]? = some p →
        (markSelected sel s ps)[i]? = some q →
      q.url = p.url ∧
      (sel.contains p.url = true → q.status = s) ∧
      (sel.contains p.url = false → q.status = p.status) ∧
      (p.internalLinks = none → q.internalLinks = none) ∧
      (∀ ls, p.internalLinks = some ls → ∃ qs, q.internalLinks = some qs ∧
        qs.length = ls.length ∧
        ∀ (j : Nat) (l ql : LinkRef), ls[j]? = some l → qs[j]? = some ql →
          ql.href = l.href ∧
          (sel.contains l.href = true → ql.status = some s) ∧
          (sel.contains l.href = false →
            ql.status = some (l.status.getD Status.pending)))) := by
  refine ⟨markSelected_map_url sel s ps, ?_⟩
  intro i p q hp hq
  rw [markSelected_getElem?, hp] at hq
  have hq' : q = markPage sel s p := (Option.some.inj hq).symm
  subst hq'
  obtain ⟨hurl, hsel, hnsel, hnone, hsome⟩ := markPage_spec sel s p
  refine ⟨hurl, hsel, hnsel, hnone, ?_⟩
  intro ls hls
  refine ⟨ls.map (markLink sel s), hsome ls hls, by simp, ?_⟩
  intro j l ql hl hql
  have hmapj : (ls.map (markLink sel s))[j]? = (ls[j]?).map (markLink sel s) := by
    simp
  rw [hmapj, hl] at hql
  have hql' : ql = markLink sel s l := (Option.some.inj hql).symm
  subst hql'
  exact markLink_spec sel s l

/-- Witness for C3 amended: on the example state, the pass that selects only
page a marks page a pending while page c keeps its status. -/
theorem mark_pass_frame_witness :
    (exState.pages[1]? = some exPageC) ∧
    ((markSelected ["https://a/"] Status.pending exState.pages)[1]?
      = some (markPage ["https://a/"] Status.pending exPageC)) ∧
    ((["https://a/"] : List String).contains exPageC.url = false) ∧
    (markPage ["https://a/"] Status.pending exPageC).status = exPageC.status :=
  ⟨rfl, rfl, rfl,
    ((mark_pass_frame ["https://a/"] Status.pending exState.pages).2 1 exPageC
        (markPage ["https://a/"] Status.pending exPageC) rfl rfl).2.2.1 rfl⟩

/-- Result pages of any crawl invocation are the image of a marking pass. -/
theorem handleCrawlSelected_pages_shape (st : AppState) (sel : List String)
    (outcome : CrawlOutcome) (saveOk : Bool) :
    ∃ s base, (handleCrawlSelected st sel outcome saveOk).1.pages
        = markSelected sel s base := by
  cases outcome with
  | fetchErr msg => exact ⟨Status.error, markSelected sel Status.pending st.pages, rfl⟩
  | notOk e => exact ⟨Status.error, markSelected sel Status.pending st.pages, rfl⟩
  | ok data =>
      cases herr : jsTruthyStr data.error with
      | true =>
          refine ⟨Status.error, markSelected sel Status.pending st.pages, ?_⟩
          simp [handleCrawlSelected, crawlFailure, herr]
      | false =>
          cases saveOk with
          | true =>
              refine ⟨Status.crawled, markSelected sel Status.pending st.pages, ?_⟩
              simp [handleCrawlSelected, herr]
          | false =>
              refine ⟨Status.pending, st.pages, ?_⟩
              simp [handleCrawlSelected, herr]

/-- C9: after a marking pass every nested link has a defined status, and a
link with no assigned status whose href is not selected is defaulted to
pending; consequently after any crawl invocation every link of every page
carries a defined status. -/
theorem marking_defines_every_link_status :
    (∀ (sel : List String) (s : Status) (ps : List DiscoveredPage),
      ∀ p ∈ markSelected sel s ps, ∀ ls, p.internalLinks = some ls →
        ∀ l ∈ ls, l.status.isSome = true) ∧
    (∀ (sel : List String) (s : Status) (ps : List DiscoveredPage) (i : Nat)
        (p q : DiscoveredPage), ps[i]? = some p →
        (markSelected sel s ps)[i]? = some q →
      ∀ ls qs, p.internalLinks = some ls → q.internalLinks = some qs →
      ∀ (j : Nat) (l ql : LinkRef), ls[j]? = some l → qs[j]? = some ql →
        l.status = none → sel.contains l.href = false →
          ql.status = some Status.pending) ∧
    (∀ (st : AppState) (sel : List String) (outcome : CrawlOutcome) (saveOk : Bool),
      ∀ p ∈ (handleCrawlSelected st sel outcome saveOk).1.pages,
        ∀ ls, p.internalLinks = some ls → ∀ l ∈ ls, l.status.isSome = true) := by
  refine ⟨?_, ?_, ?_⟩
  · intro sel s ps p hp ls hls l hl
    exact (markSelected_link_status sel s ps p hp ls hls l hl).1
  · intro sel s ps i p q hp hq ls qs hls hqs j l ql hl hql hnone hc
    rw [markSelected_getElem?, hp] at hq
    have hq' : q = markPage sel s p := (Option.some.inj hq).symm
    subst hq'
    have hintl : (markPage sel s p).internalLinks = some (ls.map (markLink sel s)) :=
      (markPage_spec sel s p).2.2.2.2 ls hls
    rw [hqs] at hintl
    have hqs' : qs = ls.map (markLink sel s) := Option.some.inj hintl
    subst hqs'
    have hmapj : (ls.map (markLink sel s))[j]? = (ls[j]?).map (markLink sel s) := by
      simp
    rw [hmapj, hl] at hql
    have hql' : ql = markLink sel s l := (Option.some.inj hql).symm
    subst hql'
    rw [(markLink_spec sel s l).2.2 hc, hnone]
    rfl
  · intro st sel outcome saveOk p hp ls hls l hl
    obtain ⟨s, base, hbase⟩ := handleCrawlSelected_pages_shape st sel outcome saveOk
    rw [hbase] at hp
    exact (markSelected_link_status sel s base p hp ls hls l hl).1

/-- Witness for C9: the unassigned, unselected link of the example page is
defaulted to pending by the error reconciliation pass. -/
theorem marking_defines_every_link_status_witness :
    (exState.pages[0]? = some exPageA) ∧
    ((markSelected ["https://c/"] Status.error exState.pages)[0]?
      = some (markPage ["https://c/"] Status.error exPageA)) ∧
    (exPageA.internalLinks = some [⟨"https://a/b", none⟩, ⟨"https://c/", some Status.crawled⟩]) ∧
    ((markPage ["https://c/"] Status.error exPageA).internalLinks
      = some [⟨"https://a/b", some Status.pending⟩, ⟨"https://c/", some Status.error⟩]) ∧
    ((⟨"https://a/b", some Status.pending⟩ : LinkRef).status = some Status.pending) :=
  ⟨rfl, rfl, rfl, rfl,
    marking_defines_every_link_status.2.1 ["https://c/"] Status.error exState.pages 0
      exPageA (markPage ["https://c/"] Status.error exPageA) rfl rfl
      [⟨"https://a/b", none⟩, ⟨"https://c/", some Status.crawled⟩]
      [⟨"https://a/b", some Status.pending⟩, ⟨"https://c/", some Status.error⟩]
      rfl rfl 0 ⟨"https://a/b", none⟩ ⟨"https://a/b", some Status.pending⟩
      rfl rfl rfl rfl⟩

theorem discoveryCatchNotif_destructive (msg : String) :
    (discoveryCatchNotif msg).destructive = true := by
  unfold discoveryCatchNotif
  split <;> rfl

/-- C6 counterexample: a discovery run that fails in transport on a state
that already held a page ends with an empty page collection, so the model is
not left untouched by the failed request — it was cleared at submission
start. -/
theorem discovery_failure_untouched_counterexample :
    ((handleSubmit exState "https://x/" 3 true
        (DiscoveryOutcome.fetchErr "ECONNREFUSED")).1.pages = []) ∧
    exState.pages ≠ [] ∧
    ((handleSubmit exState "https://x/" 3 true
        (DiscoveryOutcome.fetchErr "ECONNREFUSED")).1.pages ≠ exState.pages) := by
  refine ⟨rfl, by decide, by decide⟩

/-- C6 amended: on a transport or backend discovery failure no pages from
the failed run are installed — the collection ends empty, having been
cleared unconditionally at submission start before the request — the stats
are untouched, a destructive failure notification is surfaced, and the busy
flag is cleared. -/
theorem discovery_failure_leaves_cleared_model
    (st : AppState) (u : String) (depth : Int) (outcome : DiscoveryOutcome)
    (hfail : outcome.isFailure = true) :
    ((handleSubmit st u depth true outcome).1.pages = []) ∧
    (∃ n ∈ (handleSubmit st u depth true outcome).2, n.destructive = true) ∧
    ((handleSubmit st u depth true outcome).1.stats = st.stats) ∧
    ((handleSubmit st u depth true outcome).1.isProcessing = false) := by
  cases outcome with
  | fetchErr msg =>
      refine ⟨rfl, ⟨discoveryCatchNotif msg, ?_, discoveryCatchNotif_destructive msg⟩, rfl, rfl⟩
      show discoveryCatchNotif msg ∈ [discoveryCatchNotif msg]
      exact List.mem_singleton.mpr rfl
  | resp ok data =>
      have hok : ok = false := by
        simpa [DiscoveryOutcome.isFailure] using hfail
      subst hok
      refine ⟨rfl, ?_, rfl, rfl⟩
      exact ⟨⟨"Error: " ++ jsOrStr data.errorType "Unknown",
              jsOrStr data.error "Failed to discover pages", true⟩,
             List.mem_cons_self _ _, rfl⟩

/-- Witness for C6 amended at a concrete backend failure. -/
theorem discovery_failure_leaves_cleared_model_witness :
    (DiscoveryOutcome.resp false ⟨none, some "backend down", none⟩).isFailure = true ∧
    ((handleSubmit exState "https://x/" 3 true
        (DiscoveryOutcome.resp false ⟨none, some "backend down", none⟩)).1.pages = []) :=
  ⟨rfl, (discovery_failure_leaves_cleared_model exState "https://x/" 3
      (DiscoveryOutcome.resp false ⟨none, some "backend down", none⟩) rfl).1⟩

/-- C4 counterexample: a request whose depth field parses to 0 is sent
onward with depth 3, while clamp(0, 1, 5) is 1, so the value sent to the
backend is not always the clamp of the input. -/
theorem depth_clamp_counterexample :
    ((POST ⟨some "https://a/", DepthField.num 0⟩
        (BackendResult.resp true 200 ⟨some [], none, none⟩)).sentDepth = some 3) ∧
    specClamp 0 = 1 ∧ ((3 : Int) ≠ 1) := by
  refine ⟨rfl, rfl, by decide⟩

/-- C4 amended: the depth sent to the backend is the validated depth, which
equals clamp(depth, 1, 5) for every nonzero integer input while a depth that
is absent, non-numeric, or 0 (falsy under the JavaScript default) yields
exactly 3; the value sent is always within [1, 5], so the backend never
receives an out-of-range depth. -/
theorem depth_validation_clamps :
    (∀ (body : DiscoverBody) (backend : BackendResult), jsTruthyStr body.url = true →
        (POST body backend).sentDepth = some (validatedDepth body.depth)) ∧
    (∀ n : Int, n ≠ 0 → validatedDepth (DepthField.num n) = specClamp n) ∧
    (validatedDepth DepthField.absent = 3) ∧
    (validatedDepth DepthField.nonNumeric = 3) ∧
    (validatedDepth (DepthField.num 0) = 3) ∧
    (∀ df : DepthField, 1 ≤ validatedDepth df ∧ validatedDepth df ≤ 5) := by
  refine ⟨?_, ?_, rfl, rfl, rfl, ?_⟩
  · intro body backend h
    cases backend with
    | fetchErr msg => simp [POST, h]
    | resp ok code data => cases ok <;> simp [POST, h]
  · intro n hn
    simp only [validatedDepth, specClamp, parsedDepth, jsOrInt, hn, if_false]
    rcases le_total n 1 with h1 | h1 <;> rcases le_total n 5 with h5 | h5 <;>
      simp [min_def, max_def] <;> omega
  · intro df
    cases df with
    | absent => exact ⟨by decide, by decide⟩
    | nonNumeric => exact ⟨by decide, by decide⟩
    | num n =>
        simp only [validatedDepth, parsedDepth, jsOrInt]
        constructor
        · rcases le_total ((if n = 0 then (3 : Int) else n)) 1 with h | h <;>
            simp [min_def, max_def] <;> omega
        · rcases le_total ((if n = 0 then (3 : Int) else n)) 5 with h | h <;>
            simp [min_def, max_def] <;> omega

/-- Witness for C4 amended at concrete depths, including an out-of-range 7
clamped to 5. -/
theorem depth_validation_clamps_witness :
    jsTruthyStr (DiscoverBody.mk (some "https://docs.example.com") (DepthField.num 7)).url = true ∧
    ((POST ⟨some "https://docs.example.com", DepthField.num 7⟩
        (BackendResult.resp true 200 ⟨some [], none, none⟩)).sentDepth
      = some (validatedDepth (DepthField.num 7))) ∧
    ((7 : Int) ≠ 0) ∧
    (validatedDepth (DepthField.num 7) = specClamp 7) ∧
    specClamp 7 = 5 :=
  ⟨rfl,
    depth_validation_clamps.1 ⟨some "https://docs.example.com", DepthField.num 7⟩
      (BackendResult.resp true 200 ⟨some [], none, none⟩) rfl,
    by decide,
    depth_validation_clamps.2.1 7 (by decide),
    rfl⟩

/-- C7: a 2xx backend discovery response whose pages array is empty and
whose message is not set still yields a 200 success route response with an
empty pages array, no error field, and the default message No pages
discovered; an empty result is not conflated with a failure. -/
theorem empty_discovery_is_success
    (body : DiscoverBody) (code : Nat) (data : BackendDiscoverData)
    (hurl : jsTruthyStr body.url = true)
    (hpages : data.pages = some [])
    (hmsg : jsTruthyStr data.message = false) :
    ((POST body (BackendResult.resp true code data)).status = 200) ∧
    ((POST body (BackendResult.resp true code data)).pages = some []) ∧
    ((POST body (BackendResult.resp true code data)).message = some "No pages discovered") ∧
    ((POST body (BackendResult.resp true code data)).error = none) := by
  simp [POST, hurl, hpages, hmsg]

/-- Witness for C7 at a concrete empty backend result. -/
theorem empty_discovery_is_success_witness :
    jsTruthyStr (DiscoverBody.mk (some "https://example.com") DepthField.absent).url = true ∧
    (BackendDiscoverData.mk (some []) none none).pages = some [] ∧
    jsTruthyStr (BackendDiscoverData.mk (some []) none none).message = false ∧
    ((POST ⟨some "https://example.com", DepthField.absent⟩
        (BackendResult.resp true 200 ⟨some [], none, none⟩)).message
      = some "No pages discovered") :=
  ⟨rfl, rfl, rfl,
    (empty_discovery_is_success ⟨some "https://example.com", DepthField.absent⟩ 200
        ⟨some [], none, none⟩ rfl rfl rfl).2.2.1⟩

/-- C10: a request body with an absent or falsy url yields exactly the 400
response with error URL is required, and the backend is never contacted —
the response is the same whatever the backend would have answered. -/
theorem missing_url_gives_400
    (body : DiscoverBody) (backend : BackendResult)
    (hurl : jsTruthyStr body.url = false) :
    POST body backend
      = ⟨400, some "URL is required", none, none, false, none⟩ := by
  simp [POST, hurl]

/-- Witness for C10 at a concrete body with no url. -/
theorem missing_url_gives_400_witness :
    jsTruthyStr (DiscoverBody.mk none DepthField.absent).url = false ∧
    (POST ⟨none, DepthField.absent⟩ (BackendResult.fetchErr "unreachable")
      = ⟨400, some "URL is required", none, none, false, none⟩) :=
  ⟨rfl, missing_url_gives_400 ⟨none, DepthField.absent⟩
      (BackendResult.fetchErr "unreachable") rfl⟩

end DevDocs
